import Mathlib

/-! Verification of the account-ledger domain model of this repository:
checking and savings accounts, deposits, withdrawals, transfers, fee and
interest application, and the Brazilian document validators.  Monetary
amounts are modelled as rationals.  A Python exception is modelled as an
error component in the result of each operation, paired with the state as
it stands at the moment the exception propagates (mutations performed
before the raise persist, as in the source).  The refactored layered
version lives in namespace `Banco`; the legacy monolith (banco2.py), whose
operations print a notification and return instead of raising, lives in
namespace `Legacy`. -/

namespace Banco

/-- Typed domain errors of src/exceptions/banco_exceptions.py, plus a
constructor for pydantic validation errors raised by field validators that
raise a plain ValueError. -/
inductive BancoError where
  | valorInvalido (valor : ℚ)
  | saldoInsuficiente (saldo_atual valor_solicitado : ℚ)
  | limiteExcedido (limite_disponivel valor_solicitado : ℚ)
  | cpfInvalido (cpf : String)
  | idadeInvalida (idade : ℤ)
  | validationError (mensagem : String)
deriving Repr, DecidableEq

/-- Python str.strip on a character list: drop leading and trailing
whitespace. -/
def stripChars (l : List Char) : List Char :=
  ((l.dropWhile Char.isWhitespace).reverse.dropWhile Char.isWhitespace).reverse

/-- Python str.strip on a string. -/
def pyStrip (s : String) : String :=
  ⟨stripChars s.data⟩

/-- Transaction record (src/models/transacao.py).  The timestamp and the
back-reference to the owning account are not needed by any claim and are
omitted; `tipo` and `valor` carry the validated payload. -/
structure Transacao where
  tipo : String
  valor : ℚ
deriving Repr, DecidableEq

/-- Pydantic construction of a Transacao: the `tipo` validator strips the
label and rejects it when blank, the `valor` validator rejects a
non-positive amount; a failed field validator surfaces as a pydantic
ValidationError to the caller. -/
def Transacao.mk? (tipo : String) (valor : ℚ) : Except BancoError Transacao :=
  if pyStrip tipo = "" then
    .error (.validationError "Tipo de transação não pode ser vazio")
  else if valor ≤ 0 then
    .error (.validationError "Valor da transação deve ser positivo")
  else
    .ok { tipo := pyStrip tipo, valor := valor }

/-- Checking account (src/models/conta_corrente.py).  The credential hash
and the owner are not needed by any claim. -/
structure ContaCorrente where
  numero : String
  saldo : ℚ
  limite : ℚ
  taxa_manutencao : ℚ := 10
  transacoes : List Transacao := []
deriving Repr, DecidableEq

/-- Savings account (src/models/conta_poupanca.py). -/
structure ContaPoupanca where
  numero : String
  saldo : ℚ
  taxa_rendimento : ℚ
  data_aniversario : ℤ
  transacoes : List Transacao := []
deriving Repr, DecidableEq

/-- ContaCorrente.sacar: reject a non-positive amount, reject an amount
above saldo + limite (reporting the available total and the request),
otherwise deduct from the balance.  The method itself appends no
transaction. -/
def ContaCorrente.sacar (c : ContaCorrente) (valor : ℚ) :
    ContaCorrente × Option BancoError :=
  if valor ≤ 0 then (c, some (.valorInvalido valor))
  else
    let limite_total := c.saldo + c.limite
    if valor > limite_total then (c, some (.limiteExcedido limite_total valor))
    else ({ c with saldo := c.saldo - valor }, none)

/-- ContaCorrente.aplicar_taxas: deduct the maintenance fee
unconditionally. -/
def ContaCorrente.aplicar_taxas (c : ContaCorrente) : ContaCorrente :=
  { c with saldo := c.saldo - c.taxa_manutencao }

/-- ContaCorrente.get_valor_imposto: 7 percent of the balance; the body
reads the balance and mutates nothing, so the returned state is the
input. -/
def ContaCorrente.get_valor_imposto (c : ContaCorrente) : ℚ × ContaCorrente :=
  (c.saldo * (7 / 100), c)

/-- ContaPoupanca.sacar: reject a non-positive amount, reject an amount
above the balance (reporting balance and request), otherwise deduct. -/
def ContaPoupanca.sacar (c : ContaPoupanca) (valor : ℚ) :
    ContaPoupanca × Option BancoError :=
  if valor ≤ 0 then (c, some (.valorInvalido valor))
  else if valor > c.saldo then (c, some (.saldoInsuficiente c.saldo valor))
  else ({ c with saldo := c.saldo - valor }, none)

/-- ContaPoupanca.aplicar_taxas: savings accounts have no maintenance fee;
the body is pass. -/
def ContaPoupanca.aplicar_taxas (c : ContaPoupanca) : ContaPoupanca := c

/-- ContaPoupanca.get_rendimento: balance times rate over one hundred; no
mutation. -/
def ContaPoupanca.get_rendimento (c : ContaPoupanca) : ℚ × ContaPoupanca :=
  (c.saldo * (c.taxa_rendimento / 100), c)

/-- An account as handled polymorphically by the service layer. -/
inductive Conta where
  | corrente : ContaCorrente → Conta
  | poupanca : ContaPoupanca → Conta
deriving Repr, DecidableEq

/-- Account-number accessor. -/
def Conta.numero : Conta → String
  | .corrente c => c.numero
  | .poupanca p => p.numero

/-- Balance accessor. -/
def Conta.saldo : Conta → ℚ
  | .corrente c => c.saldo
  | .poupanca p => p.saldo

/-- Transaction-log accessor. -/
def Conta.transacoes : Conta → List Transacao
  | .corrente c => c.transacoes
  | .poupanca p => p.transacoes

/-- Assignment conta.saldo = v. -/
def Conta.setSaldo : Conta → ℚ → Conta
  | .corrente c, v => .corrente { c with saldo := v }
  | .poupanca p, v => .poupanca { p with saldo := v }

/-- conta.transacoes.append t. -/
def Conta.appendTransacao : Conta → Transacao → Conta
  | .corrente c, t => .corrente { c with transacoes := c.transacoes ++ [t] }
  | .poupanca p, t => .poupanca { p with transacoes := p.transacoes ++ [t] }

/-- Polymorphic dispatch of conta.sacar(valor). -/
def Conta.sacar : Conta → ℚ → Conta × Option BancoError
  | .corrente c, v =>
    match c.sacar v with
    | (c2, e) => (.corrente c2, e)
  | .poupanca p, v =>
    match p.sacar v with
    | (p2, e) => (.poupanca p2, e)

/-- Polymorphic dispatch of conta.aplicar_taxas(). -/
def Conta.aplicarTaxasModel : Conta → Conta
  | .corrente c => .corrente c.aplicar_taxas
  | .poupanca p => .poupanca p.aplicar_taxas

/-- Service realizar_deposito (src/services/conta_service.py): reject a
non-positive amount, otherwise add it to the balance and then append one
Transacao of type Depósito; the balance mutation precedes the transaction
construction, as in the source. -/
def realizar_deposito (conta : Conta) (valor : ℚ) : Conta × Option BancoError :=
  if valor ≤ 0 then (conta, some (.valorInvalido valor))
  else
    let conta2 := conta.setSaldo (conta.saldo + valor)
    match Transacao.mk? "Depósito" valor with
    | .error e => (conta2, some e)
    | .ok t => (conta2.appendTransacao t, none)

/-- Service realizar_saque: delegate to conta.sacar (which validates and
raises), then append one Transacao of type Saque. -/
def realizar_saque (conta : Conta) (valor : ℚ) : Conta × Option BancoError :=
  match conta.sacar valor with
  | (c, some e) => (c, some e)
  | (c, none) =>
    match Transacao.mk? "Saque" valor with
    | .error e => (c, some e)
    | .ok t => (c.appendTransacao t, none)

/-- Service transferir: withdraw from the source under its own rules, log
an outgoing Transacao labelled with the destination number, then deposit
into the destination unconditionally and log an incoming Transacao
labelled with the source number.  A raise at any point stops the rest. -/
def transferir (conta_origem conta_destino : Conta) (valor : ℚ) :
    (Conta × Conta) × Option BancoError :=
  match conta_origem.sacar valor with
  | (o, some e) => ((o, conta_destino), some e)
  | (o, none) =>
    match Transacao.mk? ("Transf. para " ++ conta_destino.numero) valor with
    | .error e => ((o, conta_destino), some e)
    | .ok t1 =>
      let o2 := o.appendTransacao t1
      let d := conta_destino.setSaldo (conta_destino.saldo + valor)
      match Transacao.mk? ("Transf. de " ++ conta_origem.numero) valor with
      | .error e => ((o2, d), some e)
      | .ok t2 => ((o2, d.appendTransacao t2), none)

/-- Service aplicar_taxas: run the account-specific fee hook; when the
balance dropped, log the charged amount as a Taxa manutenção
Transacao. -/
def aplicar_taxas (conta : Conta) : Conta × Option BancoError :=
  let saldo_anterior := conta.saldo
  let conta2 := conta.aplicarTaxasModel
  if conta2.saldo < saldo_anterior then
    let taxa_cobrada := saldo_anterior - conta2.saldo
    match Transacao.mk? "Taxa manutenção" taxa_cobrada with
    | .error e => (conta2, some e)
    | .ok t => (conta2.appendTransacao t, none)
  else (conta2, none)

/-- Service aplicar_rendimento: on an account exposing get_rendimento
(savings), compute the yield, add it to the balance, then construct and
append a Rendimento Transacao; on other accounts the hasattr guard makes
it a no-op.  The balance mutation precedes the transaction construction,
so a transaction-validation raise leaves the balance already updated. -/
def aplicar_rendimento (conta : Conta) : Conta × Option BancoError :=
  match conta with
  | .corrente _ => (conta, none)
  | .poupanca p =>
    let rendimento := (p.get_rendimento).1
    let p2 := { p with saldo := p.saldo + rendimento }
    match Transacao.mk? "Rendimento" rendimento with
    | .error e => (.poupanca p2, some e)
    | .ok t => (.poupanca { p2 with transacoes := p2.transacoes ++ [t] }, none)

/-- An account operation of the service layer, used to state reachability
properties over operation sequences. -/
inductive Op where
  | depositar (valor : ℚ)
  | sacar (valor : ℚ)
  | aplicarTaxas
deriving Repr, DecidableEq

/-- One service call; a raised error leaves the state the call returned. -/
def stepConta (conta : Conta) : Op → Conta
  | .depositar v => (realizar_deposito conta v).1
  | .sacar v => (realizar_saque conta v).1
  | .aplicarTaxas => (aplicar_taxas conta).1

/-- Run a sequence of service calls. -/
def runOps (conta : Conta) (ops : List Op) : Conta :=
  ops.foldl stepConta conta

/-- Run a sequence of deposits, as in the N-sequential-deposits
property. -/
def depositos (conta : Conta) (valores : List ℚ) : Conta :=
  valores.foldl (fun c v => (realizar_deposito c v).1) conta

/-- validar_cpf (src/utils/validators.py): keep only digit characters,
require exactly 11 of them, reject when the cleaned string equals its
first character repeated 11 times, then check the two verification digits
computed by the weighted sums over positions 0..8 with weight 10 - i and
positions 0..9 with weight 11 - i, modulo 11, remainder below 2 giving 0
and otherwise 11 - remainder. -/
def validar_cpf (cpf : String) : Bool :=
  let cpf_limpo := cpf.data.filter Char.isDigit
  if cpf_limpo.length ≠ 11 then false
  else if cpf_limpo = List.replicate 11 (cpf_limpo.headD '0') then false
  else
    let dig : Nat → Nat := fun i => (cpf_limpo.getD i '0').toNat - 48
    let soma1 := ((List.range 9).map (fun i => dig i * (10 - i))).sum
    let resto1 := soma1 % 11
    let digito1 := if resto1 < 2 then 0 else 11 - resto1
    if dig 9 ≠ digito1 then false
    else
      let soma2 := ((List.range 10).map (fun i => dig i * (11 - i))).sum
      let resto2 := soma2 % 11
      let digito2 := if resto2 < 2 then 0 else 11 - resto2
      dig 10 == digito2

/-- The numeric values of the digit characters of a string, in order, as
the spec describes the stripped person-ID. -/
def cpfDigits (s : String) : List Nat :=
  (s.data.filter Char.isDigit).map (fun c => c.toNat - 48)

/-- A check digit as the spec words it: weighted sum of the given digits
against the given weight vector, modulo 11, remainder below 2 giving 0 and
otherwise 11 minus the remainder. -/
def checkDigit (ds pesos : List Nat) : Nat :=
  let resto := (List.zipWith (fun d p => d * p) ds pesos).sum % 11
  if resto < 2 then 0 else 11 - resto

/-- A calendar date; the age validator receives the current date as a
parameter rather than reading the clock. -/
structure Date where
  year : ℤ
  month : ℤ
  day : ℤ
deriving Repr, DecidableEq

/-- The age computation of the Pessoa data_nascimento validator:
hoje.year - nasc.year, minus one when (hoje.month, hoje.day) is
lexicographically before (nasc.month, nasc.day). -/
def calc_idade (hoje nasc : Date) : ℤ :=
  hoje.year - nasc.year -
    (if hoje.month < nasc.month ∨ (hoje.month = nasc.month ∧ hoje.day < nasc.day)
     then 1 else 0)

/-- A bank customer (src/models/cliente.py), extending Pessoa with a
licence number; the account list is not needed by any claim. -/
structure Cliente where
  nome : String
  cpf : String
  data_nascimento : Date
  cnh : String
deriving Repr, DecidableEq

/-- The Cliente cnh validator: remove spaces and hyphens; accept only a
nonempty all-digit remainder of length at least 9. -/
def cnhValida (v : String) : Bool :=
  let cnh_limpo := v.data.filter (fun c => c ≠ ' ' ∧ c ≠ '-')
  (cnh_limpo ≠ [] && cnh_limpo.all Char.isDigit) && cnh_limpo.length ≥ 9

/-- Pydantic construction of a Cliente.  Fields are validated in
declaration order: nome, cpf, data_nascimento (from Pessoa), then cnh.
The nome and cnh validators raise ValueError, which pydantic collects and
reports only after all fields ran; the cpf and data_nascimento validators
raise CPFInvalidoError and IdadeInvalidaError, which are not ValueError
subclasses and therefore propagate immediately, so a malformed cpf is
reported before the age is ever checked. -/
def Cliente.mk? (nome cpf : String) (data_nascimento : Date) (cnh : String)
    (hoje : Date) : Except BancoError Cliente :=
  let nome_vazio := pyStrip nome = ""
  if validar_cpf cpf = false then .error (.cpfInvalido cpf)
  else
    let idade := calc_idade hoje data_nascimento
    if idade < 18 then .error (.idadeInvalida idade)
    else if nome_vazio then .error (.validationError "Nome não pode ser vazio")
    else if cnhValida cnh = false then
      .error (.validationError "CNH inválida")
    else .ok { nome := pyStrip nome, cpf := cpf,
               data_nascimento := data_nascimento, cnh := cnh }

end Banco

namespace Legacy

/-- A console notification of the legacy monolith (banco2.py): operations
report errors to the Notificacao view instead of raising. -/
inductive Notificacao where
  | erroValorInvalido
  | erroLimiteExcedido
  | erroSaldoInsuficiente
  | deposito (valor : ℚ)
  | saque (valor : ℚ)
deriving Repr, DecidableEq

/-- A legacy transaction (banco2.py class Transacao): plain record with no
validation. -/
structure Transacao where
  tipo : String
  valor : ℚ
deriving Repr, DecidableEq

/-- Legacy checking account state (banco2.py Conta/Conta_Corrente). -/
structure ContaCorrente where
  numero : String
  saldo : ℚ
  limite : ℚ
  taxa_manutencao : ℚ := 10
  transacoes : List Transacao := []
deriving Repr, DecidableEq

/-- Legacy Conta.depositar: on a non-positive amount it emits an error
notification and returns normally, raising nothing and mutating nothing;
otherwise it adds to the balance and appends a Depósito transaction.  The
result carries the state, the propagated exception (always none here) and
the notifications emitted. -/
def ContaCorrente.depositar (c : ContaCorrente) (valor : ℚ) :
    ContaCorrente × Option Banco.BancoError × List Notificacao :=
  if valor ≤ 0 then (c, none, [.erroValorInvalido])
  else
    ({ c with
       saldo := c.saldo + valor,
       transacoes := c.transacoes ++ [{ tipo := "Depósito", valor := valor }] },
     none, [.deposito valor])

/-- Legacy Conta_Corrente.sacar: invalid amounts and amounts above
saldo + limite emit an error notification and return normally; a valid
withdrawal deducts and appends a Saque transaction. -/
def ContaCorrente.sacar (c : ContaCorrente) (valor : ℚ) :
    ContaCorrente × Option Banco.BancoError × List Notificacao :=
  if valor ≤ 0 then (c, none, [.erroValorInvalido])
  else if valor > c.saldo + c.limite then (c, none, [.erroLimiteExcedido])
  else
    ({ c with
       saldo := c.saldo - valor,
       transacoes := c.transacoes ++ [{ tipo := "Saque", valor := valor }] },
     none, [.saque valor])

end Legacy

namespace Banco

/-! Helper lemmas shared by the claim theorems. -/

/-- Setting the balance sets the balance. -/
theorem saldo_setSaldo (conta : Conta) (v : ℚ) : (conta.setSaldo v).saldo = v := by
  cases conta <;> rfl

/-- Setting the balance leaves the log alone. -/
theorem transacoes_setSaldo (conta : Conta) (v : ℚ) :
    (conta.setSaldo v).transacoes = conta.transacoes := by
  cases conta <;> rfl

/-- Appending a transaction leaves the balance alone. -/
theorem saldo_appendTransacao (conta : Conta) (t : Transacao) :
    (conta.appendTransacao t).saldo = conta.saldo := by
  cases conta <;> rfl

/-- Appending a transaction appends it to the log. -/
theorem transacoes_appendTransacao (conta : Conta) (t : Transacao) :
    (conta.appendTransacao t).transacoes = conta.transacoes ++ [t] := by
  cases conta <;> rfl

/-- A failed sacar leaves the account exactly as it was. -/
theorem sacar_error_state (conta : Conta) (valor : ℚ) (e : BancoError)
    (h : (conta.sacar valor).2 = some e) : (conta.sacar valor).1 = conta := by
  cases conta <;>
    simp only [Conta.sacar, ContaCorrente.sacar, ContaPoupanca.sacar] at * <;>
    split_ifs at * <;> simp_all

/-- A successful sacar was of a positive amount. -/
theorem sacar_pos (conta : Conta) (valor : ℚ)
    (h : (conta.sacar valor).2 = none) : 0 < valor := by
  cases conta <;>
    simp only [Conta.sacar, ContaCorrente.sacar, ContaPoupanca.sacar] at h <;>
    split_ifs at h with h1 h2 <;> simp_all

/-- The stored label of a Saque transaction. -/
theorem pyStrip_saque : pyStrip "Saque" = "Saque" := by decide

/-- The stored label of a Depósito transaction. -/
theorem pyStrip_deposito : pyStrip "Depósito" = "Depósito" := by decide

/-- Claim C1: withdrawing x from a checking account with balance B and
limit L through realizar_saque succeeds iff 0 < x and x ≤ B + L; a
non-positive x raises ValorInvalidoError, an x above B + L raises
LimiteExcedidoError carrying B + L and x, and a successful withdrawal
leaves balance B - x with exactly one Saque transaction of amount x
appended; on failure the account is returned unchanged. -/
theorem C1_realizar_saque_corrente (c : ContaCorrente) (x : ℚ) :
    ((realizar_saque (.corrente c) x).2 = none ↔ 0 < x ∧ x ≤ c.saldo + c.limite)
    ∧ (x ≤ 0 → realizar_saque (.corrente c) x
        = (.corrente c, some (.valorInvalido x)))
    ∧ (0 < x → c.saldo + c.limite < x → realizar_saque (.corrente c) x
        = (.corrente c, some (.limiteExcedido (c.saldo + c.limite) x)))
    ∧ (0 < x → x ≤ c.saldo + c.limite → realizar_saque (.corrente c) x
        = (.corrente { c with
            saldo := c.saldo - x,
            transacoes := c.transacoes ++ [⟨"Saque", x⟩] }, none)) := by
  refine ⟨?_, ?_, ?_, ?_⟩ <;>
    simp only [realizar_saque, Conta.sacar, ContaCorrente.sacar, Transacao.mk?,
      pyStrip_saque, Conta.appendTransacao] <;>
    split_ifs <;> simp_all

/-- Witness for C1 at a checking account of balance 1000 and limit 500
with x = 400. -/
theorem C1_witness :
    (0:ℚ) < 400 ∧ (400:ℚ) ≤ 1000 + 500 ∧
    realizar_saque
        (.corrente { numero := "1", saldo := 1000, limite := 500, transacoes := [] }) 400
      = (.corrente { numero := "1", saldo := 600, limite := 500,
                     transacoes := [⟨"Saque", 400⟩] }, none) := by
  refine ⟨by norm_num, by norm_num, ?_⟩
  have h := (C1_realizar_saque_corrente
    { numero := "1", saldo := 1000, limite := 500, transacoes := [] } 400).2.2.2
    (by norm_num) (by norm_num)
  simpa using h.trans (by norm_num)

/-- Claim C2: withdrawing x from a savings account with balance B through
ContaPoupanca.sacar succeeds iff 0 < x and x ≤ B; a non-positive x raises
ValorInvalidoError, an x above B raises SaldoInsuficienteError carrying B
and x, a success leaves balance B - x, and on failure the account (balance
and log) is returned unchanged. -/
theorem C2_contaPoupanca_sacar (c : ContaPoupanca) (x : ℚ) :
    ((c.sacar x).2 = none ↔ 0 < x ∧ x ≤ c.saldo)
    ∧ (x ≤ 0 → c.sacar x = (c, some (BancoError.valorInvalido x)))
    ∧ (0 < x → c.saldo < x →
        c.sacar x = (c, some (BancoError.saldoInsuficiente c.saldo x)))
    ∧ (0 < x → x ≤ c.saldo →
        c.sacar x = ({ c with saldo := c.saldo - x }, none)) := by
  unfold ContaPoupanca.sacar
  refine ⟨?_, ?_, ?_, ?_⟩ <;> split_ifs <;> simp_all

/-- Witness for C2 at a savings account of balance 5000 with x = 400. -/
theorem C2_witness :
    (0:ℚ) < 400 ∧ (400:ℚ) ≤ 5000 ∧
    ContaPoupanca.sacar
        { numero := "2", saldo := 5000, taxa_rendimento := 10,
          data_aniversario := 5, transacoes := [] } 400
      = ({ numero := "2", saldo := 4600, taxa_rendimento := 10,
           data_aniversario := 5, transacoes := [] }, none) := by
  refine ⟨by norm_num, by norm_num, ?_⟩
  have h := (C2_contaPoupanca_sacar
    { numero := "2", saldo := 5000, taxa_rendimento := 10,
      data_aniversario := 5, transacoes := [] } 400).2.2.2
    (by norm_num) (by norm_num)
  simpa using h.trans (by norm_num)

/-- Claim C4: a deposit of a non-positive amount raises ValorInvalidoError
with the account unchanged; a positive deposit adds the amount to the
balance and appends one Depósito transaction of that amount; consequently
running any list of positive deposits adds their sum to the balance and
grows the log by the length of the list. -/
theorem C4_realizar_deposito (conta : Conta) (valor : ℚ) (valores : List ℚ) :
    (valor ≤ 0 → realizar_deposito conta valor
        = (conta, some (.valorInvalido valor)))
    ∧ (0 < valor → realizar_deposito conta valor
        = ((conta.setSaldo (conta.saldo + valor)).appendTransacao
            ⟨"Depósito", valor⟩, none))
    ∧ ((∀ v ∈ valores, 0 < v) →
        (depositos conta valores).saldo = conta.saldo + valores.sum
        ∧ (depositos conta valores).transacoes.length
            = conta.transacoes.length + valores.length) := by
  refine ⟨?_, ?_, ?_⟩
  · intro h
    simp [realizar_deposito, h]
  · intro h
    simp [realizar_deposito, Transacao.mk?, pyStrip_deposito, not_le.mpr h,
      le_of_lt h]
  · intro hpos
    induction valores generalizing conta with
    | nil => simp [depositos]
    | cons v vs ih =>
      have hv : 0 < v := hpos v (List.mem_cons_self v vs)
      have hstep : (realizar_deposito conta v).1
          = (conta.setSaldo (conta.saldo + v)).appendTransacao ⟨"Depósito", v⟩ := by
        simp [realizar_deposito, Transacao.mk?, pyStrip_deposito, not_le.mpr hv,
          le_of_lt hv]
      have hrest : ∀ w ∈ vs, 0 < w := fun w hw => hpos w (List.mem_cons_of_mem v hw)
      have ih2 := ih ((conta.setSaldo (conta.saldo + v)).appendTransacao
        ⟨"Depósito", v⟩) hrest
      constructor
      · calc (depositos conta (v :: vs)).saldo
            = (depositos ((conta.setSaldo (conta.saldo + v)).appendTransacao
                ⟨"Depósito", v⟩) vs).saldo := by
              simp [depositos, hstep]
          _ = conta.saldo + v + vs.sum := by
              rw [ih2.1, saldo_appendTransacao, saldo_setSaldo]
          _ = conta.saldo + (v :: vs).sum := by
              simp
              try ring
      · calc (depositos conta (v :: vs)).transacoes.length
            = (depositos ((conta.setSaldo (conta.saldo + v)).appendTransacao
                ⟨"Depósito", v⟩) vs).transacoes.length := by
              simp [depositos, hstep]
          _ = conta.transacoes.length + 1 + vs.length := by
              rw [ih2.2, transacoes_appendTransacao, transacoes_setSaldo]
              simp
          _ = conta.transacoes.length + (v :: vs).length := by
              simp
              try omega

/-- Witness for C4: two deposits of 100 and 250 into a checking account of
balance 1000 and empty log end at balance 1350 with two log entries. -/
theorem C4_witness :
    (∀ v ∈ [(100:ℚ), 250], 0 < v) ∧
    (depositos (.corrente { numero := "1", saldo := 1000, limite := 500,
                            transacoes := [] }) [100, 250]).saldo = 1350 ∧
    (depositos (.corrente { numero := "1", saldo := 1000, limite := 500,
                            transacoes := [] }) [100, 250]).transacoes.length = 2 := by
  have hpos : ∀ v ∈ [(100:ℚ), 250], 0 < v := by norm_num
  have h := (C4_realizar_deposito
    (.corrente { numero := "1", saldo := 1000, limite := 500, transacoes := [] })
    1 [100, 250]).2.2 hpos
  refine ⟨hpos, ?_, ?_⟩
  · rw [h.1]
    norm_num [Conta.saldo]
  · rw [h.2]
    simp [Conta.transacoes]

/-- Claim C8: get_valor_imposto on a checking account returns exactly
balance times 7/100 and get_rendimento on a savings account returns
exactly balance times rate/100; both are pure: the account comes back
unchanged, and iterating the call any number of times keeps returning the
same value on the same balance and log. -/
theorem C8_imposto_rendimento :
    (∀ c : ContaCorrente, (c.get_valor_imposto).1 = c.saldo * (7 / 100)
      ∧ (c.get_valor_imposto).2 = c
      ∧ ((c.get_valor_imposto).2.get_valor_imposto).1 = (c.get_valor_imposto).1
      ∧ (c.get_valor_imposto).2.saldo = c.saldo
      ∧ (c.get_valor_imposto).2.transacoes = c.transacoes)
    ∧ (∀ (c : ContaCorrente) (n : ℕ),
        (fun s => (ContaCorrente.get_valor_imposto s).2)^[n] c = c)
    ∧ (∀ p : ContaPoupanca, (p.get_rendimento).1 = p.saldo * (p.taxa_rendimento / 100)
      ∧ (p.get_rendimento).2 = p
      ∧ ((p.get_rendimento).2.get_rendimento).1 = (p.get_rendimento).1
      ∧ (p.get_rendimento).2.saldo = p.saldo
      ∧ (p.get_rendimento).2.transacoes = p.transacoes)
    ∧ (∀ (p : ContaPoupanca) (n : ℕ),
        (fun s => (ContaPoupanca.get_rendimento s).2)^[n] p = p) := by
  refine ⟨fun c => ⟨rfl, rfl, rfl, rfl, rfl⟩, fun c n => ?_,
    fun p => ⟨rfl, rfl, rfl, rfl, rfl⟩, fun p n => ?_⟩
  · have h : (fun s => (ContaCorrente.get_valor_imposto s).2) = id := rfl
    simp [h]
  · have h : (fun s => (ContaPoupanca.get_rendimento s).2) = id := rfl
    simp [h]

/-- Claim C9: constructing a Cliente with a malformed person-ID fails with
CPFInvalidoError regardless of the birth date, because the cpf field is
validated before the birth date and CPFInvalidoError propagates
immediately; with a well-formed person-ID and a birth date giving age 17
it fails with IdadeInvalidaError. -/
theorem C9_cliente_construcao (nome cpf : String) (dn hoje : Date) (cnh : String) :
    (validar_cpf cpf = false →
      Cliente.mk? nome cpf dn cnh hoje = .error (.cpfInvalido cpf))
    ∧ (validar_cpf cpf = true → calc_idade hoje dn = 17 →
      Cliente.mk? nome cpf dn cnh hoje = .error (.idadeInvalida 17)) := by
  constructor
  · intro h
    simp [Cliente.mk?, h]
  · intro h hage
    simp [Cliente.mk?, h, hage]

/-- Witness for C9: the well-formed id 123.456.789-09 with birth date
2008-12-01 seen from 2026-10-12 (age 17) fails with IdadeInvalidaError,
and the malformed id 123.456.789-00 fails with CPFInvalidoError even
with an adult birth date. -/
theorem C9_witness :
    validar_cpf "123.456.789-09" = true
    ∧ calc_idade ⟨2026, 10, 12⟩ ⟨2008, 12, 1⟩ = 17
    ∧ Cliente.mk? "Ana" "123.456.789-09" ⟨2008, 12, 1⟩ "123456789" ⟨2026, 10, 12⟩
        = .error (.idadeInvalida 17)
    ∧ validar_cpf "123.456.789-00" = false
    ∧ Cliente.mk? "Ana" "123.456.789-00" ⟨1990, 1, 1⟩ "123456789" ⟨2026, 10, 12⟩
        = .error (.cpfInvalido "123.456.789-00") := by
  refine ⟨by decide, by decide, ?_, by decide, ?_⟩
  · exact (C9_cliente_construcao "Ana" "123.456.789-09" ⟨2008, 12, 1⟩
      ⟨2026, 10, 12⟩ "123456789").2 (by decide) (by decide)
  · exact (C9_cliente_construcao "Ana" "123.456.789-00" ⟨1990, 1, 1⟩
      ⟨2026, 10, 12⟩ "123456789").1 (by decide)

/-- Claim C10: on a savings account with positive rate, aplicar_rendimento
with positive balance b adds exactly b * rate/100 and appends exactly one
Rendimento transaction of that amount; with balance 0 the computed yield
is 0, the Transacao positive-amount validator rejects it, the raise
propagates, no transaction is appended and the balance stays 0. -/
theorem C10_aplicar_rendimento (p : ContaPoupanca) (ht : 0 < p.taxa_rendimento) :
    (0 < p.saldo →
      aplicar_rendimento (.poupanca p) =
        (.poupanca { p with
            saldo := p.saldo + p.saldo * (p.taxa_rendimento / 100),
            transacoes := p.transacoes
              ++ [⟨"Rendimento", p.saldo * (p.taxa_rendimento / 100)⟩] },
         none))
    ∧ (p.saldo = 0 →
      aplicar_rendimento (.poupanca p) =
        (.poupanca p, some (.validationError "Valor da transação deve ser positivo"))) := by
  constructor
  · intro hpos
    have hr : 0 < p.saldo * (p.taxa_rendimento / 100) := by positivity
    simp [aplicar_rendimento, ContaPoupanca.get_rendimento, Transacao.mk?,
      not_le.mpr hr, show pyStrip "Rendimento" = "Rendimento" from by decide]
  · intro hzero
    obtain ⟨numero, saldo, taxa, dia, trans⟩ := p
    simp only at hzero
    subst hzero
    simp [aplicar_rendimento, ContaPoupanca.get_rendimento, Transacao.mk?,
      show pyStrip "Rendimento" = "Rendimento" from by decide]

/-- Witness for C10 at a savings account of rate 10: balance 200 gains a
yield of 20 with one Rendimento transaction; balance 0 fails with the
positive-amount validation error. -/
theorem C10_witness :
    (0:ℚ) < 10 ∧ (0:ℚ) < 200 ∧
    aplicar_rendimento (.poupanca { numero := "2", saldo := 200, taxa_rendimento := 10,
                                    data_aniversario := 5, transacoes := [] })
      = (.poupanca { numero := "2", saldo := 220, taxa_rendimento := 10,
                     data_aniversario := 5, transacoes := [⟨"Rendimento", 20⟩] }, none) ∧
    aplicar_rendimento (.poupanca { numero := "2", saldo := 0, taxa_rendimento := 10,
                                    data_aniversario := 5, transacoes := [] })
      = (.poupanca { numero := "2", saldo := 0, taxa_rendimento := 10,
                     data_aniversario := 5, transacoes := [] },
         some (.validationError "Valor da transação deve ser positivo")) := by
  refine ⟨by norm_num, by norm_num, ?_, ?_⟩
  · have h := (C10_aplicar_rendimento { numero := "2", saldo := 200, taxa_rendimento := 10,
                                        data_aniversario := 5, transacoes := [] }
      (by norm_num)).1 (by norm_num)
    simpa using h.trans (by norm_num)
  · exact (C10_aplicar_rendimento { numero := "2", saldo := 0, taxa_rendimento := 10,
                                    data_aniversario := 5, transacoes := [] }
      (by norm_num)).2 rfl

/-- A Transacao of type Depósito with a positive amount constructs
successfully. -/
theorem mk_ok_deposito (v : ℚ) (h : 0 < v) :
    Transacao.mk? "Depósito" v = .ok ⟨"Depósito", v⟩ := by
  simp [Transacao.mk?, pyStrip_deposito, not_le.mpr h]

/-- A Transacao of type Saque with a positive amount constructs
successfully. -/
theorem mk_ok_saque (v : ℚ) (h : 0 < v) :
    Transacao.mk? "Saque" v = .ok ⟨"Saque", v⟩ := by
  simp [Transacao.mk?, pyStrip_saque, not_le.mpr h]

/-- One non-fee service call on a checking account keeps it a checking
account, keeps its limit, and preserves the overdraft bound. -/
theorem stepConta_corrente_no_fee (c : ContaCorrente) (op : Op)
    (hop : op ≠ Op.aplicarTaxas) :
    ∃ c2 : ContaCorrente, stepConta (.corrente c) op = .corrente c2
      ∧ c2.limite = c.limite
      ∧ (-c.limite ≤ c.saldo → -c.limite ≤ c2.saldo) := by
  cases op with
  | aplicarTaxas => exact absurd rfl hop
  | depositar v =>
    by_cases hv : v ≤ 0
    · exact ⟨c, by simp [stepConta, realizar_deposito, hv], rfl, fun h => h⟩
    · have hv2 : 0 < v := not_le.mp hv
      refine ⟨{ c with saldo := c.saldo + v,
                       transacoes := c.transacoes ++ [⟨"Depósito", v⟩] }, ?_, rfl, ?_⟩
      · simp [stepConta, realizar_deposito, hv, mk_ok_deposito v hv2,
          Conta.setSaldo, Conta.saldo, Conta.appendTransacao]
      · intro h
        simp only
        linarith
  | sacar v =>
    by_cases hv : v ≤ 0
    · refine ⟨c, ?_, rfl, fun h => h⟩
      simp [stepConta, realizar_saque, Conta.sacar, ContaCorrente.sacar, hv]
    · by_cases hlim : v > c.saldo + c.limite
      · refine ⟨c, ?_, rfl, fun h => h⟩
        simp [stepConta, realizar_saque, Conta.sacar, ContaCorrente.sacar, hv, hlim]
      · have hv2 : 0 < v := not_le.mp hv
        refine ⟨{ c with saldo := c.saldo - v,
                         transacoes := c.transacoes ++ [⟨"Saque", v⟩] }, ?_, rfl, ?_⟩
        · simp [stepConta, realizar_saque, Conta.sacar, ContaCorrente.sacar, hv,
            hlim, mk_ok_saque v hv2, Conta.appendTransacao]
        · intro h
          simp only
          have := not_lt.mp hlim
          linarith
    
/-- Any fee-free sequence of service calls on a checking account keeps the
balance at or above minus the limit. -/
theorem runOps_corrente_no_fee (c : ContaCorrente) (ops : List Op)
    (hops : ∀ op ∈ ops, op ≠ Op.aplicarTaxas) (hinv : -c.limite ≤ c.saldo) :
    ∃ c2 : ContaCorrente, runOps (.corrente c) ops = .corrente c2
      ∧ c2.limite = c.limite ∧ -c.limite ≤ c2.saldo := by
  induction ops generalizing c with
  | nil => exact ⟨c, rfl, rfl, hinv⟩
  | cons op ops ih =>
    obtain ⟨c1, h1, hlim1, hs1⟩ :=
      stepConta_corrente_no_fee c op (hops op (List.mem_cons_self op ops))
    obtain ⟨c2, h2, hlim2, hs2⟩ :=
      ih c1 (fun o ho => hops o (List.mem_cons_of_mem op ho))
        (by rw [hlim1]; exact hs1 hinv)
    refine ⟨c2, ?_, by rw [hlim2, hlim1], by rw [← hlim1]; exact hs2⟩
    calc runOps (.corrente c) (op :: ops)
        = runOps (stepConta (.corrente c) op) ops := by simp [runOps]
      _ = runOps (.corrente c1) ops := by rw [h1]
      _ = .corrente c2 := h2

/-- Counterexample to claim C5: a checking account with balance 0 and
limit 0 is a valid initial state, yet one fee application drives the
balance to -10, strictly below minus the limit. -/
theorem C5_counterexample :
    (runOps (.corrente { numero := "1", saldo := 0, limite := 0, transacoes := [] })
        [Op.aplicarTaxas]).saldo
      < -((({ numero := "1", saldo := 0, limite := 0,
                transacoes := [] } : ContaCorrente)).limite) := by
  have h : (runOps (.corrente { numero := "1", saldo := 0, limite := 0,
                                transacoes := [] }) [Op.aplicarTaxas]).saldo = -10 := by
    simp +decide [runOps, stepConta, aplicar_taxas, Conta.aplicarTaxasModel,
      ContaCorrente.aplicar_taxas, Conta.saldo, Conta.appendTransacao,
      Transacao.mk?]
  rw [h]
  norm_num

/-- Claim C5 (amended): for a checking account with a non-negative limit
started at a non-negative balance, any sequence of deposits and
withdrawals keeps the balance at or above minus the overdraft limit; fee
application is excluded, since aplicar_taxas deducts the maintenance fee
unconditionally and can push the balance below minus the limit. -/
theorem C5_sem_taxa_invariante (c : ContaCorrente) (ops : List Op)
    (hlim : 0 ≤ c.limite) (hsaldo : 0 ≤ c.saldo)
    (hops : ∀ op ∈ ops, op ≠ Op.aplicarTaxas) :
    -c.limite ≤ (runOps (.corrente c) ops).saldo := by
  obtain ⟨c2, h2, _, hs⟩ := runOps_corrente_no_fee c ops hops (by linarith)
  rw [h2]
  simpa [Conta.saldo] using hs

/-- Witness for C5 (amended): balance 100, limit 50, a deposit of 30 then
a withdrawal of 120 end at balance 10, within the bound -50. -/
theorem C5_witness :
    (0:ℚ) ≤ 50 ∧ (0:ℚ) ≤ 100 ∧
    (∀ op ∈ [Op.depositar 30, Op.sacar 120], op ≠ Op.aplicarTaxas) ∧
    -((50:ℚ)) ≤ (runOps (.corrente { numero := "1", saldo := 100, limite := 50,
                                     transacoes := [] })
        [Op.depositar 30, Op.sacar 120]).saldo := by
  refine ⟨by norm_num, by norm_num, by simp, ?_⟩
  exact C5_sem_taxa_invariante
    { numero := "1", saldo := 100, limite := 50, transacoes := [] }
    [Op.depositar 30, Op.sacar 120] (by norm_num) (by norm_num) (by simp)

/-- Counterexample to claim C6: in the legacy monolith a deposit of -5, a
violation of the positive-amount rule, propagates no error and returns
normally (it only emits a console notification), while the refactored
service raises ValorInvalidoError on the same input. -/
theorem C6_counterexample :
    Legacy.ContaCorrente.depositar
        { numero := "1", saldo := 100, limite := 500, transacoes := [] } (-5)
      = ({ numero := "1", saldo := 100, limite := 500, transacoes := [] },
         none, [.erroValorInvalido])
    ∧ (realizar_deposito
        (.corrente { numero := "1", saldo := 100, limite := 500, transacoes := [] })
        (-5)).2 = some (.valorInvalido (-5)) := by
  constructor
  · norm_num [Legacy.ContaCorrente.depositar]
  · norm_num [realizar_deposito]

/-- Claim C6 (amended): in the refactored layered version every deposit or
withdrawal violation raises the matching typed error synchronously; in the
legacy monolith the same violations are swallowed: the operation emits an
error notification and returns normally with no exception and the account
unchanged. -/
theorem C6_propagacao (conta : Conta) (c : ContaCorrente) (p : ContaPoupanca)
    (lc : Legacy.ContaCorrente) (v : ℚ) :
    (v ≤ 0 → (realizar_deposito conta v).2 = some (.valorInvalido v))
    ∧ (v ≤ 0 → c.sacar v = (c, some (.valorInvalido v)))
    ∧ (0 < v → c.saldo + c.limite < v →
        c.sacar v = (c, some (.limiteExcedido (c.saldo + c.limite) v)))
    ∧ (v ≤ 0 → p.sacar v = (p, some (.valorInvalido v)))
    ∧ (0 < v → p.saldo < v →
        p.sacar v = (p, some (.saldoInsuficiente p.saldo v)))
    ∧ (v ≤ 0 → lc.depositar v = (lc, none, [.erroValorInvalido]))
    ∧ (v ≤ 0 → lc.sacar v = (lc, none, [.erroValorInvalido]))
    ∧ (0 < v → lc.saldo + lc.limite < v →
        lc.sacar v = (lc, none, [.erroLimiteExcedido])) := by
  refine ⟨?_, ?_, ?_, ?_, ?_, ?_, ?_, ?_⟩ <;>
    simp only [realizar_deposito, ContaCorrente.sacar, ContaPoupanca.sacar,
      Legacy.ContaCorrente.depositar, Legacy.ContaCorrente.sacar] <;>
    intros <;> split_ifs <;> simp_all <;> linarith

/-- Witness for C6 (amended) at the amount -5 (and 10000 for the
limit-exceeded cases). -/
theorem C6_witness :
    ((-5:ℚ) ≤ 0 ∧
      (realizar_deposito (.corrente { numero := "1", saldo := 100, limite := 500,
                                      transacoes := [] }) (-5)).2
        = some (.valorInvalido (-5)))
    ∧ (Legacy.ContaCorrente.depositar
        { numero := "1", saldo := 100, limite := 500, transacoes := [] } (-5)
      = ({ numero := "1", saldo := 100, limite := 500, transacoes := [] },
         none, [.erroValorInvalido]))
    ∧ ((0:ℚ) < 10000 ∧ (100:ℚ) + 500 < 10000 ∧
      Legacy.ContaCorrente.sacar
          { numero := "1", saldo := 100, limite := 500, transacoes := [] } 10000
        = ({ numero := "1", saldo := 100, limite := 500, transacoes := [] },
           none, [.erroLimiteExcedido])) := by
  refine ⟨⟨by norm_num, ?_⟩, ?_, by norm_num, ?_, ?_⟩
  · exact (C6_propagacao
      (.corrente { numero := "1", saldo := 100, limite := 500, transacoes := [] })
      { numero := "1", saldo := 100, limite := 500, transacoes := [] }
      { numero := "2", saldo := 0, taxa_rendimento := 1, data_aniversario := 1,
        transacoes := [] }
      { numero := "1", saldo := 100, limite := 500, transacoes := [] }
      (-5)).1 (by norm_num)
  · exact (C6_propagacao
      (.corrente { numero := "1", saldo := 100, limite := 500, transacoes := [] })
      { numero := "1", saldo := 100, limite := 500, transacoes := [] }
      { numero := "2", saldo := 0, taxa_rendimento := 1, data_aniversario := 1,
        transacoes := [] }
      { numero := "1", saldo := 100, limite := 500, transacoes := [] }
      (-5)).2.2.2.2.2.1 (by norm_num)
  · norm_num
  · exact (C6_propagacao
      (.corrente { numero := "1", saldo := 100, limite := 500, transacoes := [] })
      { numero := "1", saldo := 100, limite := 500, transacoes := [] }
      { numero := "2", saldo := 0, taxa_rendimento := 1, data_aniversario := 1,
        transacoes := [] }
      { numero := "1", saldo := 100, limite := 500, transacoes := [] }
      10000).2.2.2.2.2.2.2 (by norm_num) (by norm_num)

/-- After stripping, a list containing a non-whitespace character is not
empty. -/
theorem stripChars_ne_nil {l : List Char} {a : Char} (ha : a ∈ l)
    (hw : a.isWhitespace = false) : stripChars l ≠ [] := by
  intro h
  unfold stripChars at h
  rw [List.reverse_eq_nil_iff, List.dropWhile_eq_nil_iff] at h
  have h2 : ∀ x ∈ l.dropWhile Char.isWhitespace, x.isWhitespace := by
    intro x hx
    exact h x (List.mem_reverse.mpr hx)
  have h3 : ∀ x ∈ l, x.isWhitespace := by
    intro x hx
    rw [← List.takeWhile_append_dropWhile (p := Char.isWhitespace) (l := l)] at hx
    rcases List.mem_append.mp hx with h4 | h4
    · exact List.mem_takeWhile_imp h4
    · exact h2 x h4
  rw [h3 a ha] at hw
  cases hw

/-- A string containing a non-whitespace character does not strip to the
empty string. -/
theorem pyStrip_ne_empty {s : String} {a : Char} (ha : a ∈ s.data)
    (hw : a.isWhitespace = false) : pyStrip s ≠ "" := by
  intro h
  exact stripChars_ne_nil ha hw (congrArg String.data h)

/-- The outgoing transfer label never strips to the empty string. -/
theorem transf_para_ne_empty (s : String) :
    pyStrip ("Transf. para " ++ s) ≠ "" := by
  refine pyStrip_ne_empty (a := 'T') ?_ (by decide)
  show 'T' ∈ "Transf. para ".data ++ s.data
  exact List.mem_append.mpr (Or.inl (by decide))

/-- The incoming transfer label never strips to the empty string. -/
theorem transf_de_ne_empty (s : String) :
    pyStrip ("Transf. de " ++ s) ≠ "" := by
  refine pyStrip_ne_empty (a := 'T') ?_ (by decide)
  show 'T' ∈ "Transf. de ".data ++ s.data
  exact List.mem_append.mpr (Or.inl (by decide))

/-- A Transacao with a non-blank label and a positive amount constructs
successfully, storing the stripped label. -/
theorem mk_ok_of (tipo : String) (v : ℚ) (h1 : pyStrip tipo ≠ "") (h2 : 0 < v) :
    Transacao.mk? tipo v = .ok ⟨pyStrip tipo, v⟩ := by
  simp [Transacao.mk?, h1, not_le.mpr h2]

/-- Claim C3: transferir withdraws from the source under the rules of the
source account; when that raises, the deposit does not run and both
accounts come back unchanged with the error; when it succeeds, exactly one
outgoing transaction labelled with the destination number is appended to
the source, the amount is added to the destination balance
unconditionally, and exactly one incoming transaction labelled with the
source number is appended to the destination.  At the spec scenario
(checking 1000 with limit 500, savings 5000), transferring 400 yields
balances 600 and 5400 with one new log entry each, and transferring 10000
raises LimiteExcedidoError with both accounts unchanged. -/
theorem C3_transferir (origem destino : Conta) (valor : ℚ) :
    (∀ e, (origem.sacar valor).2 = some e →
      transferir origem destino valor = ((origem, destino), some e))
    ∧ ((origem.sacar valor).2 = none →
      transferir origem destino valor =
        (((origem.sacar valor).1.appendTransacao
            ⟨pyStrip ("Transf. para " ++ destino.numero), valor⟩,
          (destino.setSaldo (destino.saldo + valor)).appendTransacao
            ⟨pyStrip ("Transf. de " ++ origem.numero), valor⟩), none))
    ∧ ((transferir
          (.corrente { numero := "1", saldo := 1000, limite := 500, transacoes := [] })
          (.poupanca { numero := "2", saldo := 5000, taxa_rendimento := 10,
                       data_aniversario := 5, transacoes := [] })
          400).1.1.saldo = 600
      ∧ (transferir
          (.corrente { numero := "1", saldo := 1000, limite := 500, transacoes := [] })
          (.poupanca { numero := "2", saldo := 5000, taxa_rendimento := 10,
                       data_aniversario := 5, transacoes := [] })
          400).1.2.saldo = 5400
      ∧ (transferir
          (.corrente { numero := "1", saldo := 1000, limite := 500, transacoes := [] })
          (.poupanca { numero := "2", saldo := 5000, taxa_rendimento := 10,
                       data_aniversario := 5, transacoes := [] })
          400).1.1.transacoes.length = 1
      ∧ (transferir
          (.corrente { numero := "1", saldo := 1000, limite := 500, transacoes := [] })
          (.poupanca { numero := "2", saldo := 5000, taxa_rendimento := 10,
                       data_aniversario := 5, transacoes := [] })
          400).1.2.transacoes.length = 1
      ∧ (transferir
          (.corrente { numero := "1", saldo := 1000, limite := 500, transacoes := [] })
          (.poupanca { numero := "2", saldo := 5000, taxa_rendimento := 10,
                       data_aniversario := 5, transacoes := [] })
          400).2 = none
      ∧ transferir
          (.corrente { numero := "1", saldo := 1000, limite := 500, transacoes := [] })
          (.poupanca { numero := "2", saldo := 5000, taxa_rendimento := 10,
                       data_aniversario := 5, transacoes := [] })
          10000
        = (((.corrente { numero := "1", saldo := 1000, limite := 500, transacoes := [] }),
            (.poupanca { numero := "2", saldo := 5000, taxa_rendimento := 10,
                         data_aniversario := 5, transacoes := [] })),
           some (.limiteExcedido 1500 10000))) := by
  refine ⟨?_, ?_, ?_⟩
  · intro e he
    have hstate := sacar_error_state origem valor e he
    rcases hsv : origem.sacar valor with ⟨o, eo⟩
    rw [hsv] at he hstate
    simp only at he hstate
    subst he hstate
    simp [transferir, hsv]
  · intro he
    have hpos := sacar_pos origem valor he
    rcases hsv : origem.sacar valor with ⟨o, eo⟩
    rw [hsv] at he
    simp only at he
    subst he
    simp [transferir, hsv,
      mk_ok_of _ _ (transf_para_ne_empty destino.numero) hpos,
      mk_ok_of _ _ (transf_de_ne_empty origem.numero) hpos]
  · refine ⟨?_, ?_, ?_, ?_, ?_, ?_⟩ <;>
      simp +decide [transferir, Conta.sacar, ContaCorrente.sacar, Transacao.mk?,
        Conta.setSaldo, Conta.appendTransacao, Conta.saldo, Conta.numero,
        Conta.transacoes] <;> norm_num

/-- Witness for C3: the failing-withdraw branch applied at the spec
scenario with amount 10000. -/
theorem C3_witness :
    ((Conta.corrente { numero := "1", saldo := 1000, limite := 500,
                       transacoes := [] }).sacar 10000).2
      = some (.limiteExcedido 1500 10000)
    ∧ transferir
        (.corrente { numero := "1", saldo := 1000, limite := 500, transacoes := [] })
        (.poupanca { numero := "2", saldo := 5000, taxa_rendimento := 10,
                     data_aniversario := 5, transacoes := [] })
        10000
      = (((.corrente { numero := "1", saldo := 1000, limite := 500, transacoes := [] }),
          (.poupanca { numero := "2", saldo := 5000, taxa_rendimento := 10,
                       data_aniversario := 5, transacoes := [] })),
         some (.limiteExcedido 1500 10000)) := by
  have hsacar : ((Conta.corrente { numero := "1", saldo := 1000, limite := 500,
                                   transacoes := [] }).sacar 10000).2
      = some (.limiteExcedido 1500 10000) := by
    simp [Conta.sacar, ContaCorrente.sacar]
    norm_num
  refine ⟨hsacar, ?_⟩
  exact (C3_transferir
    (.corrente { numero := "1", saldo := 1000, limite := 500, transacoes := [] })
    (.poupanca { numero := "2", saldo := 5000, taxa_rendimento := 10,
                 data_aniversario := 5, transacoes := [] })
    10000).1 (.limiteExcedido 1500 10000) hsacar

/-- Claim C7: validar_cpf strips non-digit characters, accepts only
inputs with exactly 11 digits that are not all identical and whose two
trailing digits equal the check digits computed from weights 10 down to 2
and 11 down to 2 modulo 11 (remainder below 2 giving 0, otherwise 11
minus the remainder); in particular 123.456.789-09 is valid while
111.111.111-11 and 123.456.789-00 are not. -/
theorem C7_validar_cpf :
    (∀ s : String,
      validar_cpf s = true ↔
        ((s.data.filter Char.isDigit).length = 11
          ∧ ¬ (∀ c ∈ s.data.filter Char.isDigit,
                c = (s.data.filter Char.isDigit).headD '0')
          ∧ (cpfDigits s).getD 9 0
              = checkDigit ((cpfDigits s).take 9) [10, 9, 8, 7, 6, 5, 4, 3, 2]
          ∧ (cpfDigits s).getD 10 0
              = checkDigit ((cpfDigits s).take 10) [11, 10, 9, 8, 7, 6, 5, 4, 3, 2]))
    ∧ validar_cpf "123.456.789-09" = true
    ∧ validar_cpf "111.111.111-11" = false
    ∧ validar_cpf "123.456.789-00" = false := by
  refine ⟨fun s => ?_, by decide, by decide, by decide⟩
  simp only [validar_cpf, cpfDigits]
  generalize (s.data.filter Char.isDigit) = l
  by_cases hlen : l.length = 11
  case neg => simp [hlen]
  case pos =>
    rcases l with _ | ⟨a0, l⟩; · simp at hlen
    rcases l with _ | ⟨a1, l⟩; · simp at hlen
    rcases l with _ | ⟨a2, l⟩; · simp at hlen
    rcases l with _ | ⟨a3, l⟩; · simp at hlen
    rcases l with _ | ⟨a4, l⟩; · simp at hlen
    rcases l with _ | ⟨a5, l⟩; · simp at hlen
    rcases l with _ | ⟨a6, l⟩; · simp at hlen
    rcases l with _ | ⟨a7, l⟩; · simp at hlen
    rcases l with _ | ⟨a8, l⟩; · simp at hlen
    rcases l with _ | ⟨a9, l⟩; · simp at hlen
    rcases l with _ | ⟨a10, l⟩; · simp at hlen
    have hnil : l = [] := by simpa using hlen
    subst hnil
    have hr9 : List.range 9 = [0, 1, 2, 3, 4, 5, 6, 7, 8] := by decide
    have hr10 : List.range 10 = [0, 1, 2, 3, 4, 5, 6, 7, 8, 9] := by decide
    simp [checkDigit, List.eq_replicate_iff, List.getD_cons_zero,
      List.getD_cons_succ, hr9, hr10]
    tauto

end Banco
